import Mathlib

/-!
Verification of the Broodminder CLI core: the advertisement decoder
(`_process_broodminder_manufacturer_data`), the session aggregator (the
`devices_found` update of the detection callback), and the identity store
(`load_saved_devices` / `save_devices`), shallowly embedded from
`src/broodminder_cli/cli.py` and `src/broodminder_cli/types.py`.

Python floats are modelled as exact rationals, byte strings as `List Nat`,
`None`-able values as `Option`, and a raised Python exception as
`Except.error`.
-/

/-- Python exceptions the embedded code can raise. -/
inductive PyExc where
  | indexError
  | attributeError
  | typeError
  deriving DecidableEq

/-- The persisted `BroodminderDevice` dataclass (cli.py lines 73–77). -/
structure BroodminderDevice where
  address : String
  name : Option String
  friendly_name : Option String := none
  deriving DecidableEq

/-- The `BroodminderData` dataclass (types.py). Optional fields default to `None`. -/
structure BroodminderData where
  address : String
  name : Option String
  friendly_name : Option String
  rssi : Int
  model_number : Nat
  model_name : String
  firmware_version : String
  temperature_f : Option ℚ := none
  temperature_c : Option ℚ := none
  humidity : Option Nat := none
  weight_left_lbs : Option ℚ := none
  weight_right_lbs : Option ℚ := none
  total_weight_lbs : Option ℚ := none
  battery : Option Nat := none
  elapsed_time : Option Nat := none
  raw_data : Option (List Nat) := none
  deriving DecidableEq

/-- The `MODEL_NAMES` table (cli.py lines 38–48). -/
def MODEL_NAMES : List (Nat × String) :=
  [(41, "BroodMinder-T"), (42, "BroodMinder-TH"), (43, "BroodMinder-W"),
   (47, "BroodMinder-TMWC"), (49, "BroodMinder-XLR"), (52, "BroodMinder-SubHub"),
   (56, "BroodMinder-WS"), (57, "BroodMinder-WSLR"), (58, "BroodMinder-WSXLR")]

/-- `SCALE_FACTOR = 2.0` (cli.py line 54). -/
def SCALE_FACTOR : ℚ := 2

/-- `MODEL_NAMES.get(model_number, f"Unknown-{model_number}")` (cli.py line 161). -/
def modelName (m : Nat) : String :=
  ((MODEL_NAMES.find? (fun p => p.1 == m)).map (fun p => p.2)).getD ("Unknown-" ++ toString m)

/-- Python `x or y` on optional strings: `None` and the empty string are falsy. -/
def pyOr (x y : Option String) : Option String :=
  match x with
  | some s => if s = "" then y else some s
  | none => y

/-- Membership in the scale-capable model set `(43, 47, 49, 56, 57, 58)`. -/
def IsScale (m : Nat) : Prop :=
  m = 43 ∨ m = 47 ∨ m = 49 ∨ m = 56 ∨ m = 57 ∨ m = 58

instance (m : Nat) : Decidable (IsScale m) := by
  unfold IsScale; exact inferInstance

/-- `data[i] + (data[i+1] << 8)`: the little-endian 16-bit value at bytes i, i+1
(meaningful when the caller has checked the bounds, as the source does). -/
def le16 (data : List Nat) (i : Nat) : Nat :=
  data.getD i 0 + data.getD (i + 1) 0 * 256

/-- The `BroodminderData(...)` construction at cli.py lines 163–172. -/
def baseReading (address : String) (localName : Option String) (rssi : Int)
    (saved : BroodminderDevice) (data : List Nat) : BroodminderData :=
  { address := address
    name := pyOr localName saved.name
    friendly_name := saved.friendly_name
    rssi := rssi
    model_number := data.getD 0 0
    model_name := modelName (data.getD 0 0)
    firmware_version := toString (data.getD 2 0) ++ "." ++ toString (data.getD 1 0)
    raw_data := some data }

/-- `result.battery = data[4] if len(data) > 4 else None` (cli.py line 177). -/
def applyBattery (r : BroodminderData) (data : List Nat) : BroodminderData :=
  if 4 < data.length then { r with battery := some (data.getD 4 0) }
  else { r with battery := none }

/-- Elapsed time, bytes 5–6 (cli.py lines 180–181). -/
def applyElapsed (r : BroodminderData) (data : List Nat) : BroodminderData :=
  if 6 < data.length then { r with elapsed_time := some (le16 data 5) } else r

/-- Temperature (cli.py lines 184–194): legacy formula for models 41/42/43,
offset formula gated on `temp_raw > 5000` for models ≥ 47. -/
def applyTemp (r : BroodminderData) (data : List Nat) : BroodminderData :=
  let m := data.getD 0 0
  if (m = 41 ∨ m = 42 ∨ m = 43) ∧ 8 < data.length then
    { r with
      temperature_f := some (((le16 data 7 : ℚ) / 65536 * 165 - 40) * 9 / 5 + 32)
      temperature_c := some ((le16 data 7 : ℚ) / 65536 * 165 - 40) }
  else if 47 ≤ m ∧ 8 < data.length then
    if 5000 < le16 data 7 then
      { r with
        temperature_c := some (((le16 data 7 : ℚ) - 5000) / 100)
        temperature_f := some (((le16 data 7 : ℚ) - 5000) / 100 * 9 / 5 + 32) }
    else r
  else r

/-- Humidity, byte 14, models 42 and 47 only (cli.py lines 197–198). -/
def applyHumidity (r : BroodminderData) (data : List Nat) : BroodminderData :=
  let m := data.getD 0 0
  if (m = 42 ∨ m = 47) ∧ 14 < data.length then
    { r with humidity := some (data.getD 14 0) }
  else r

/-- Two-sided weight and derived total (cli.py lines 201–219): sentinel 0x7FFF
on either side means "no reading" for that side. -/
def applyWeights (r : BroodminderData) (data : List Nat) : BroodminderData :=
  let m := data.getD 0 0
  if IsScale m ∧ 13 < data.length then
    let r1 :=
      if 11 < data.length ∧ le16 data 10 ≠ 0x7FFF then
        { r with weight_left_lbs := some (((le16 data 10 : ℚ) - 32767) / 100) }
      else r
    let r2 :=
      if 13 < data.length ∧ le16 data 12 ≠ 0x7FFF then
        { r1 with weight_right_lbs := some (((le16 data 12 : ℚ) - 32767) / 100) }
      else r1
    match r2.weight_left_lbs, r2.weight_right_lbs with
    | some l, some w => { r2 with total_weight_lbs := some ((l + w) / 2 * SCALE_FACTOR) }
    | some l, none => { r2 with total_weight_lbs := some (l * SCALE_FACTOR) }
    | none, some w => { r2 with total_weight_lbs := some (w * SCALE_FACTOR) }
    | none, none => r2
  else r

/-- The bytes 19–20 total-weight override (cli.py lines 222–226). The guard is
`len(data) > 19` but `data[20]` is read, so a length-20 payload raises
`IndexError` — modelled by the `Except.error` branch. -/
def applyOverride (r : BroodminderData) (data : List Nat) : Except PyExc BroodminderData :=
  let m := data.getD 0 0
  if IsScale m ∧ 19 < data.length then
    if 20 < data.length then
      Except.ok
        (if le16 data 19 ≠ 0x7FFF then
          { r with total_weight_lbs := some (((le16 data 19 : ℚ) - 32767) / 100 * SCALE_FACTOR) }
        else r)
    else Except.error PyExc.indexError
  else Except.ok r

/-- Everything `_process_broodminder_manufacturer_data` computes before the
bytes 19–20 override (cli.py lines 153–219). `none` models returning `None`. -/
def decodePre (address : String) (localName : Option String) (rssi : Int)
    (saved : BroodminderDevice) (data : List Nat) : Option BroodminderData :=
  if data.length < 3 then none
  else if data.length < 15 then some (baseReading address localName rssi saved data)
  else
    some (applyWeights
      (applyHumidity (applyTemp (applyElapsed
        (applyBattery (baseReading address localName rssi saved data) data) data) data) data) data)

/-- Full `_process_broodminder_manufacturer_data` (cli.py lines 148–228).
`Except.error` models a raised Python exception; `Except.ok none` models
returning `None` ("not applicable"). -/
def decode (address : String) (localName : Option String) (rssi : Int)
    (saved : BroodminderDevice) (data : List Nat) : Except PyExc (Option BroodminderData) :=
  match decodePre address localName rssi saved data with
  | none => Except.ok none
  | some r => (applyOverride r data).map some

/-- Removes the first entry whose address matches, as the loop
`for existing in devices_found: ... devices_found.remove(existing); break` does. -/
def removeFirstAddr (a : String) : List BroodminderData → List BroodminderData
  | [] => []
  | x :: xs => if x.address = a then xs else x :: removeFirstAddr a xs

/-- One detection-callback update of `devices_found` (cli.py lines 325–332):
drop any existing entry for the address, then append the new reading. -/
def ingest (l : List BroodminderData) (r : BroodminderData) : List BroodminderData :=
  removeFirstAddr r.address l ++ [r]

/-- The aggregator state after ingesting a sequence of readings into an
initially empty session. -/
def snapshot (rs : List BroodminderData) : List BroodminderData :=
  rs.foldl ingest []

/-- Keeps, for each address, only the last reading bearing it, ordered by the
position of that last occurrence. -/
def keepLast : List BroodminderData → List BroodminderData
  | [] => []
  | x :: xs => if xs.any (fun y => y.address == x.address) then keepLast xs else x :: keepLast xs

/-- Python dict lookup on an association-list model of `saved_devices`. -/
def lookupAddr : List (String × BroodminderDevice) → String → Option BroodminderDevice
  | [], _ => none
  | p :: ps, a => if p.1 = a then some p.2 else lookupAddr ps a

/-- `saved_devices[address].name = n` on the association-list model. -/
def setNameAt (m : List (String × BroodminderDevice)) (a : String) (n : Option String) :
    List (String × BroodminderDevice) :=
  m.map (fun p => if p.1 = a then (p.1, { p.2 with name := n }) else p)

/-- One iteration of the `save_devices` reconciliation loop (cli.py lines 106–113):
create a fresh identity if the address is unseen, then update `name` only when
the new reading carries a name that is not `None`. -/
def reconcileOne (m : List (String × BroodminderDevice)) (d : BroodminderData) :
    List (String × BroodminderDevice) :=
  let m1 := if (lookupAddr m d.address).isSome then m
            else m ++ [(d.address, ⟨d.address, none, none⟩)]
  match d.name with
  | some n => setNameAt m1 d.address (some n)
  | none => m1

/-- The reconciliation part of `save_devices` (cli.py lines 104–113); the JSON
serialisation that follows is external I/O. -/
def save_devices (m : List (String × BroodminderDevice)) (found : List BroodminderData) :
    List (String × BroodminderDevice) :=
  found.foldl reconcileOne m

/-- A JSON value, as produced by `json.load`. -/
inductive Json where
  | null
  | boolean (b : Bool)
  | num (n : Int)
  | str (s : String)
  | arr (xs : List Json)
  | obj (kvs : List (String × Json))

/-- The state of the `devices.json` file: absent, present but not valid JSON,
or present with a parsed JSON value. -/
inductive FileState where
  | absent
  | unparsable
  | parsed (j : Json)

/-- A device record as loaded from disk; field values are raw JSON because the
dataclass constructor performs no type checking. -/
structure LoadedDevice where
  address : Json
  name : Json
  friendly_name : Json

/-- Key lookup in a JSON object. -/
def jsonLookup (kvs : List (String × Json)) (k : String) : Option Json :=
  (kvs.find? (fun p => p.1 == k)).map (fun p => p.2)

/-- `BroodminderDevice(**device)`: raises `TypeError` unless `device` is a
mapping whose keys are a subset of the field names containing the two required
fields `address` and `name`. -/
def kwargsDevice (j : Json) : Except PyExc LoadedDevice :=
  match j with
  | Json.obj kvs =>
    if kvs.all (fun p => p.1 == "address" || p.1 == "name" || p.1 == "friendly_name") then
      match jsonLookup kvs "address", jsonLookup kvs "name" with
      | some a, some n => Except.ok ⟨a, n, (jsonLookup kvs "friendly_name").getD Json.null⟩
      | _, _ => Except.error PyExc.typeError
    else Except.error PyExc.typeError
  | _ => Except.error PyExc.typeError

/-- The dict comprehension `{addr: BroodminderDevice(**device) for addr, device in data.items()}`. -/
def buildDevices : List (String × Json) → Except PyExc (List (String × LoadedDevice))
  | [] => Except.ok []
  | (k, v) :: rest =>
    match kwargsDevice v, buildDevices rest with
    | Except.ok d, Except.ok ds => Except.ok ((k, d) :: ds)
    | Except.error e, _ => Except.error e
    | _, Except.error e => Except.error e

/-- `load_saved_devices` (cli.py lines 90–100): the `try` catches only
`json.JSONDecodeError` and `TypeError`; calling `.items()` on a non-dict JSON
value raises `AttributeError`, which is not caught. -/
def load_saved_devices (fs : FileState) : Except PyExc (List (String × LoadedDevice)) :=
  match fs with
  | FileState.absent => Except.ok []
  | FileState.unparsable => Except.ok []
  | FileState.parsed (Json.obj kvs) =>
    match buildDevices kvs with
    | Except.ok ds => Except.ok ds
    | Except.error PyExc.typeError => Except.ok []
    | Except.error e => Except.error e
  | FileState.parsed _ => Except.error PyExc.attributeError

/-- Model 43 (scale-capable) payload of length exactly 20. -/
def payload20W : List Nat := [43, 0, 1, 0, 90, 0, 0, 0, 0, 0, 0, 0, 0, 0, 0, 0, 0, 0, 0, 0]

/-- Model 41 payload of length 9 (more than 8, less than 15). -/
def payload9T : List Nat := [41, 0, 1, 0, 0, 0, 0, 0, 0]

/-- Model 41 payload of length 15 with tempRaw = 0. -/
def payload15T : List Nat := [41, 0, 1, 0, 50, 2, 0, 0, 0, 0, 0, 0, 0, 0, 0]

/-- Model 56 (scale-capable) payload of length exactly 20. -/
def payload20WS : List Nat := [56, 0, 1, 0, 90, 0, 0, 0, 0, 0, 0, 0, 0, 0, 0, 0, 0, 0, 0, 0]

/-- Model 43 payload of length 21 with non-sentinel bytes 19–20. -/
def payload21W : List Nat := [43, 0, 1, 0, 0, 0, 0, 0, 0, 0, 0, 0, 0, 0, 0, 0, 0, 0, 0, 0, 0]

/-- Model 43 payload of length 14: sentinel left weight, valid right weight. -/
def payload14W : List Nat := [43, 0, 1, 0, 0, 0, 0, 0, 0, 0, 255, 127, 0, 0]

/-- Model 43 payload of length 15: sentinel left weight, valid right weight. -/
def payload15W : List Nat := [43, 0, 1, 0, 0, 0, 0, 0, 0, 0, 255, 127, 0, 0, 0]

/-- Model 47 payload of length exactly 20 with tempRaw = 5001. -/
def payload20TMWC : List Nat := [47, 0, 1, 0, 0, 0, 0, 137, 19, 0, 0, 0, 0, 0, 0, 0, 0, 0, 0, 0]

/-- Model 47 payload of length 15 with tempRaw = 5001. -/
def payload15TMWC : List Nat := [47, 0, 1, 0, 0, 0, 0, 137, 19, 0, 0, 0, 0, 0, 0]

/-- A minimal reading for aggregator and store tests. -/
def mkSimpleReading (addr : String) (rssi : Int) : BroodminderData :=
  { address := addr, name := none, friendly_name := none, rssi := rssi,
    model_number := 41, model_name := "BroodMinder-T", firmware_version := "1.0" }

/-- A one-entry store whose identity has both a stored name and a friendly name. -/
def storeQueen : List (String × BroodminderDevice) :=
  [("AA", ⟨"AA", some "old", some "Queen"⟩)]

theorem applyBattery_tc (r : BroodminderData) (data : List Nat) :
    (applyBattery r data).temperature_c = r.temperature_c := by
  unfold applyBattery; split_ifs <;> rfl

theorem applyBattery_tf (r : BroodminderData) (data : List Nat) :
    (applyBattery r data).temperature_f = r.temperature_f := by
  unfold applyBattery; split_ifs <;> rfl

theorem applyBattery_name (r : BroodminderData) (data : List Nat) :
    (applyBattery r data).name = r.name := by
  unfold applyBattery; split_ifs <;> rfl

theorem applyElapsed_tc (r : BroodminderData) (data : List Nat) :
    (applyElapsed r data).temperature_c = r.temperature_c := by
  unfold applyElapsed; split_ifs <;> rfl

theorem applyElapsed_tf (r : BroodminderData) (data : List Nat) :
    (applyElapsed r data).temperature_f = r.temperature_f := by
  unfold applyElapsed; split_ifs <;> rfl

theorem applyElapsed_name (r : BroodminderData) (data : List Nat) :
    (applyElapsed r data).name = r.name := by
  unfold applyElapsed; split_ifs <;> rfl

theorem applyTemp_wl (r : BroodminderData) (data : List Nat) :
    (applyTemp r data).weight_left_lbs = r.weight_left_lbs := by
  unfold applyTemp; dsimp only; split_ifs <;> rfl

theorem applyTemp_name (r : BroodminderData) (data : List Nat) :
    (applyTemp r data).name = r.name := by
  unfold applyTemp; dsimp only; split_ifs <;> rfl

theorem applyHumidity_tc (r : BroodminderData) (data : List Nat) :
    (applyHumidity r data).temperature_c = r.temperature_c := by
  unfold applyHumidity; dsimp only; split_ifs <;> rfl

theorem applyHumidity_tf (r : BroodminderData) (data : List Nat) :
    (applyHumidity r data).temperature_f = r.temperature_f := by
  unfold applyHumidity; dsimp only; split_ifs <;> rfl

theorem applyHumidity_wl (r : BroodminderData) (data : List Nat) :
    (applyHumidity r data).weight_left_lbs = r.weight_left_lbs := by
  unfold applyHumidity; dsimp only; split_ifs <;> rfl

theorem applyHumidity_name (r : BroodminderData) (data : List Nat) :
    (applyHumidity r data).name = r.name := by
  unfold applyHumidity; dsimp only; split_ifs <;> rfl

theorem applyWeights_tc (r : BroodminderData) (data : List Nat) :
    (applyWeights r data).temperature_c = r.temperature_c := by
  unfold applyWeights; dsimp only; split_ifs <;> (try rfl) <;> (split <;> rfl)

theorem applyWeights_tf (r : BroodminderData) (data : List Nat) :
    (applyWeights r data).temperature_f = r.temperature_f := by
  unfold applyWeights; dsimp only; split_ifs <;> (try rfl) <;> (split <;> rfl)

theorem applyWeights_name (r : BroodminderData) (data : List Nat) :
    (applyWeights r data).name = r.name := by
  unfold applyWeights; dsimp only; split_ifs <;> (try rfl) <;> (split <;> rfl)

theorem applyTemp_legacy (r : BroodminderData) (data : List Nat)
    (hm : data.getD 0 0 = 41 ∨ data.getD 0 0 = 42 ∨ data.getD 0 0 = 43)
    (h8 : 8 < data.length) :
    applyTemp r data =
      { r with
        temperature_f := some (((le16 data 7 : ℚ) / 65536 * 165 - 40) * 9 / 5 + 32)
        temperature_c := some ((le16 data 7 : ℚ) / 65536 * 165 - 40) } := by
  unfold applyTemp; dsimp only
  rw [if_pos ⟨hm, h8⟩]

theorem applyTemp_current (r : BroodminderData) (data : List Nat)
    (hm : 47 ≤ data.getD 0 0) (h8 : 8 < data.length) :
    applyTemp r data =
      if 5000 < le16 data 7 then
        { r with
          temperature_c := some (((le16 data 7 : ℚ) - 5000) / 100)
          temperature_f := some (((le16 data 7 : ℚ) - 5000) / 100 * 9 / 5 + 32) }
      else r := by
  unfold applyTemp; dsimp only
  rw [if_neg (by omega), if_pos ⟨hm, h8⟩]

theorem applyWeights_left_sentinel (r : BroodminderData) (data : List Nat)
    (hs : IsScale (data.getD 0 0)) (h13 : 13 < data.length)
    (hwl : r.weight_left_lbs = none)
    (hl : le16 data 10 = 0x7FFF) (hr : le16 data 12 ≠ 0x7FFF) :
    applyWeights r data =
      { r with
        weight_right_lbs := some (((le16 data 12 : ℚ) - 32767) / 100)
        total_weight_lbs := some (((le16 data 12 : ℚ) - 32767) / 100 * SCALE_FACTOR) } := by
  have hA : (11 < data.length ∧ le16 data 10 ≠ 0x7FFF) ↔ False := by simp [hl]
  have hB : (13 < data.length ∧ le16 data 12 ≠ 0x7FFF) ↔ True := by simp [h13, hr]
  unfold applyWeights
  dsimp only
  rw [if_pos ⟨hs, h13⟩]
  simp only [hA, hB, if_false, if_true]
  rw [hwl]

theorem applyOverride_shape (r : BroodminderData) (data : List Nat)
    (h : ¬(IsScale (data.getD 0 0) ∧ data.length = 20)) :
    ∃ q, applyOverride r data = Except.ok { r with total_weight_lbs := q } := by
  unfold applyOverride
  dsimp only
  split_ifs with h1 h2 h3
  · exact ⟨some (((le16 data 19 : ℚ) - 32767) / 100 * SCALE_FACTOR), rfl⟩
  · exact ⟨r.total_weight_lbs, rfl⟩
  · exact absurd ⟨h1.1, by omega⟩ h
  · exact ⟨r.total_weight_lbs, rfl⟩

theorem applyOverride_hit (r : BroodminderData) (data : List Nat)
    (hs : IsScale (data.getD 0 0)) (h20 : 20 < data.length)
    (hne : le16 data 19 ≠ 0x7FFF) :
    applyOverride r data =
      Except.ok
        { r with
          total_weight_lbs := some (((le16 data 19 : ℚ) - 32767) / 100 * SCALE_FACTOR) } := by
  unfold applyOverride
  dsimp only
  rw [if_pos ⟨hs, by omega⟩, if_pos h20, if_pos hne]

theorem applyOverride_ok_shape (r s : BroodminderData) (data : List Nat)
    (h : applyOverride r data = Except.ok s) :
    ∃ q, s = { r with total_weight_lbs := q } := by
  unfold applyOverride at h
  dsimp only at h
  split_ifs at h <;> (simp only [Except.ok.injEq] at h; exact ⟨_, h.symm⟩)

theorem decodePre_ge15 (a : String) (l : Option String) (rssi : Int)
    (saved : BroodminderDevice) (data : List Nat) (h : 15 ≤ data.length) :
    decodePre a l rssi saved data =
      some (applyWeights (applyHumidity (applyTemp
        ({ baseReading a l rssi saved data with
            battery := some (data.getD 4 0)
            elapsed_time := some (le16 data 5) }) data) data) data) := by
  unfold decodePre applyBattery applyElapsed
  rw [if_neg (by omega), if_neg (by omega), if_pos (by omega), if_pos (by omega)]

theorem decode_proj {α : Type} (f : BroodminderData → α)
    (hf : ∀ (r : BroodminderData) (q : Option ℚ), f { r with total_weight_lbs := q } = f r)
    (a : String) (l : Option String) (rssi : Int) (saved : BroodminderDevice) (data : List Nat)
    (h : ¬(IsScale (data.getD 0 0) ∧ data.length = 20)) :
    (decode a l rssi saved data).map (Option.map f) =
      Except.ok ((decodePre a l rssi saved data).map f) := by
  unfold decode
  cases hp : decodePre a l rssi saved data with
  | none => rfl
  | some r =>
    dsimp only
    obtain ⟨q, hq⟩ := applyOverride_shape r data h
    rw [hq]
    simp [Except.map, Option.map, hf]

theorem decodePre_temp_paired (a : String) (l : Option String) (rssi : Int)
    (saved : BroodminderDevice) (data : List Nat) (r : BroodminderData)
    (h : decodePre a l rssi saved data = some r) :
    (r.temperature_c.isSome ↔ r.temperature_f.isSome) := by
  unfold decodePre at h
  split_ifs at h with h3 h15
  · simp only [Option.some.injEq] at h
    subst h
    simp [baseReading]
  · simp only [Option.some.injEq] at h
    subst h
    rw [applyWeights_tc, applyWeights_tf, applyHumidity_tc, applyHumidity_tf]
    have hc : (applyElapsed (applyBattery (baseReading a l rssi saved data) data) data).temperature_c = none := by
      rw [applyElapsed_tc, applyBattery_tc]; rfl
    have hf : (applyElapsed (applyBattery (baseReading a l rssi saved data) data) data).temperature_f = none := by
      rw [applyElapsed_tf, applyBattery_tf]; rfl
    unfold applyTemp
    dsimp only
    split_ifs <;> simp [hc, hf]

theorem decodePre_name (a : String) (l : Option String) (rssi : Int)
    (saved : BroodminderDevice) (data : List Nat) (r : BroodminderData)
    (h : decodePre a l rssi saved data = some r) :
    r.name = pyOr l saved.name := by
  unfold decodePre at h
  split_ifs at h with h3 h15
  · simp only [Option.some.injEq] at h
    subst h
    rfl
  · simp only [Option.some.injEq] at h
    subst h
    rw [applyWeights_name, applyHumidity_name, applyTemp_name, applyElapsed_name, applyBattery_name]
    rfl

theorem lookupAddr_append_ne (m : List (String × BroodminderDevice)) (b : String)
    (p : String × BroodminderDevice) (h : p.1 ≠ b) :
    lookupAddr (m ++ [p]) b = lookupAddr m b := by
  induction m with
  | nil => simp only [List.nil_append, lookupAddr, if_neg h]
  | cons q m ih =>
    simp only [List.cons_append, lookupAddr]
    split_ifs
    · rfl
    · exact ih

theorem lookupAddr_append_self (m : List (String × BroodminderDevice)) (a : String)
    (d : BroodminderDevice) (h : lookupAddr m a = none) :
    lookupAddr (m ++ [(a, d)]) a = some d := by
  induction m with
  | nil => simp [lookupAddr]
  | cons q m ih =>
    unfold lookupAddr at h ⊢
    rcases eq_or_ne q.1 a with hq | hq
    · rw [if_pos hq] at h
      exact absurd h (by simp)
    · rw [if_neg hq] at h
      simp only [List.cons_append, if_neg hq]
      exact ih h

theorem lookupAddr_setNameAt_ne (m : List (String × BroodminderDevice)) (a b : String)
    (n : Option String) (h : a ≠ b) :
    lookupAddr (setNameAt m a n) b = lookupAddr m b := by
  induction m with
  | nil => rfl
  | cons q m ih =>
    rcases eq_or_ne q.1 a with hq | hq
    · have hqb : ¬(q.1 = b) := fun hb => h (by rw [← hq]; exact hb)
      simp only [setNameAt, List.map_cons, if_pos hq, lookupAddr]
      rw [if_neg hqb, if_neg hqb]
      exact ih
    · simp only [setNameAt, List.map_cons, if_neg hq, lookupAddr]
      split_ifs
      · rfl
      · exact ih

theorem lookupAddr_setNameAt_self (m : List (String × BroodminderDevice)) (a : String)
    (n : Option String) :
    lookupAddr (setNameAt m a n) a =
      (lookupAddr m a).map (fun d => { d with name := n }) := by
  induction m with
  | nil => rfl
  | cons q m ih =>
    rcases eq_or_ne q.1 a with hq | hq
    · simp only [setNameAt, List.map_cons, if_pos hq, lookupAddr]
      rfl
    · simp only [setNameAt, List.map_cons, if_neg hq, lookupAddr]
      exact ih

theorem save_devices_cons (m : List (String × BroodminderDevice)) (d : BroodminderData)
    (fs : List BroodminderData) :
    save_devices m (d :: fs) = save_devices (reconcileOne m d) fs := rfl

theorem reconcileOne_lookup_ne (m : List (String × BroodminderDevice)) (d : BroodminderData)
    (b : String) (h : b ≠ d.address) :
    lookupAddr (reconcileOne m d) b = lookupAddr m b := by
  unfold reconcileOne
  cases hn : d.name with
  | none =>
    dsimp only
    split_ifs with hp
    · rfl
    · exact lookupAddr_append_ne m b _ (Ne.symm h)
  | some n =>
    dsimp only
    rw [lookupAddr_setNameAt_ne _ d.address b (some n) (Ne.symm h)]
    split_ifs with hp
    · rfl
    · exact lookupAddr_append_ne m b _ (Ne.symm h)

theorem reconcileOne_self_some_some (m : List (String × BroodminderDevice))
    (d : BroodminderData) (dev : BroodminderDevice) (n : String)
    (hm : lookupAddr m d.address = some dev) (hn : d.name = some n) :
    lookupAddr (reconcileOne m d) d.address = some { dev with name := some n } := by
  unfold reconcileOne
  rw [hn]
  dsimp only
  rw [if_pos (by simp [hm])]
  rw [lookupAddr_setNameAt_self, hm]
  rfl

theorem reconcileOne_self_some_none (m : List (String × BroodminderDevice))
    (d : BroodminderData) (dev : BroodminderDevice)
    (hm : lookupAddr m d.address = some dev) (hn : d.name = none) :
    lookupAddr (reconcileOne m d) d.address = some dev := by
  unfold reconcileOne
  rw [hn]
  dsimp only
  rw [if_pos (by simp [hm])]
  exact hm

theorem reconcileOne_self_none_some (m : List (String × BroodminderDevice))
    (d : BroodminderData) (n : String)
    (hm : lookupAddr m d.address = none) (hn : d.name = some n) :
    lookupAddr (reconcileOne m d) d.address = some ⟨d.address, some n, none⟩ := by
  unfold reconcileOne
  rw [hn]
  dsimp only
  rw [if_neg (by simp [hm])]
  rw [lookupAddr_setNameAt_self, lookupAddr_append_self m d.address _ hm]
  rfl

theorem reconcileOne_self_none_none (m : List (String × BroodminderDevice))
    (d : BroodminderData)
    (hm : lookupAddr m d.address = none) (hn : d.name = none) :
    lookupAddr (reconcileOne m d) d.address = some ⟨d.address, none, none⟩ := by
  unfold reconcileOne
  rw [hn]
  dsimp only
  rw [if_neg (by simp [hm])]
  exact lookupAddr_append_self m d.address _ hm

theorem reconcileOne_self_isSome (m : List (String × BroodminderDevice))
    (d : BroodminderData) :
    (lookupAddr (reconcileOne m d) d.address).isSome := by
  cases hm : lookupAddr m d.address with
  | some dev =>
    cases hn : d.name with
    | some n => rw [reconcileOne_self_some_some m d dev n hm hn]; rfl
    | none => rw [reconcileOne_self_some_none m d dev hm hn]; rfl
  | none =>
    cases hn : d.name with
    | some n => rw [reconcileOne_self_none_some m d n hm hn]; rfl
    | none => rw [reconcileOne_self_none_none m d hm hn]; rfl

theorem save_devices_preserves_present (found : List BroodminderData) :
    ∀ (m : List (String × BroodminderDevice)) (b : String),
      (lookupAddr m b).isSome → (lookupAddr (save_devices m found) b).isSome := by
  induction found with
  | nil => exact fun m b h => h
  | cons d fs ih =>
    intro m b h
    rw [save_devices_cons]
    apply ih
    rcases eq_or_ne b d.address with hb | hb
    · subst hb; exact reconcileOne_self_isSome m d
    · rw [reconcileOne_lookup_ne m d b hb]; exact h

theorem save_devices_entry_shape (found : List BroodminderData) :
    ∀ (m : List (String × BroodminderDevice)) (b : String) (dev : BroodminderDevice),
      lookupAddr m b = some dev →
      ∃ devN, lookupAddr (save_devices m found) b = some devN ∧
        devN.friendly_name = dev.friendly_name ∧ (dev.name.isSome → devN.name.isSome) := by
  induction found with
  | nil => exact fun m b dev h => ⟨dev, h, rfl, fun x => x⟩
  | cons d fs ih =>
    intro m b dev h
    rw [save_devices_cons]
    rcases eq_or_ne b d.address with hb | hb
    · subst hb
      cases hn : d.name with
      | some n =>
        have hstep := reconcileOne_self_some_some m d dev n h hn
        obtain ⟨devN, hN, hf, hname⟩ := ih (reconcileOne m d) d.address _ hstep
        exact ⟨devN, hN, hf, fun _ => hname (by simp)⟩
      | none =>
        have hstep := reconcileOne_self_some_none m d dev h hn
        exact ih (reconcileOne m d) d.address dev hstep
    · have hstep := reconcileOne_lookup_ne m d b hb
      rw [h] at hstep
      exact ih (reconcileOne m d) b dev hstep

/-- C1: a scale-capable payload of length exactly 20 makes the decoder raise
`IndexError` at `data[20]` instead of returning a Reading or `None`. -/
theorem c1_decode_raises_on_length20 :
    decode "AA:BB" none (-50) ⟨"AA:BB", none, none⟩ payload20W =
      Except.error PyExc.indexError ∧
    IsScale (payload20W.getD 0 0) ∧ payload20W.length = 20 :=
  ⟨rfl, by decide, rfl⟩

/-- C3 counterexample: a legacy-model payload of length 9 (> 8) decodes with the
temperature fields absent, refuting the claim that length > 8 is the only
length precondition for temperature. -/
theorem c3_counterexample :
    (decode "AA" none 0 ⟨"AA", none, none⟩ payload9T).map
        (Option.map (fun r => r.temperature_c)) = Except.ok (some none) ∧
    8 < payload9T.length ∧ payload9T.getD 0 0 = 41 :=
  ⟨rfl, by decide, rfl⟩

/-- C3 amended: for legacy models 41/42/43, temperature is populated exactly when
the payload length is at least 15 (which subsumes the > 8 check), with
tempC = tempRaw/65536*165 - 40 and tempF = tempC*9/5 + 32; the length-20
model-43 case is excluded because of the separate out-of-range defect. -/
theorem c3_legacy_temperature (a : String) (l : Option String) (rssi : Int)
    (saved : BroodminderDevice) (data : List Nat)
    (hm : data.getD 0 0 = 41 ∨ data.getD 0 0 = 42 ∨ data.getD 0 0 = 43)
    (h15 : 15 ≤ data.length)
    (h20 : ¬(IsScale (data.getD 0 0) ∧ data.length = 20)) :
    (decode a l rssi saved data).map (Option.map (fun r => r.temperature_c)) =
      Except.ok (some (some ((le16 data 7 : ℚ) / 65536 * 165 - 40))) ∧
    (decode a l rssi saved data).map (Option.map (fun r => r.temperature_f)) =
      Except.ok (some (some (((le16 data 7 : ℚ) / 65536 * 165 - 40) * 9 / 5 + 32))) := by
  rw [decode_proj (fun r => r.temperature_c) (fun _ _ => rfl) a l rssi saved data h20,
      decode_proj (fun r => r.temperature_f) (fun _ _ => rfl) a l rssi saved data h20,
      decodePre_ge15 a l rssi saved data h15,
      applyTemp_legacy _ data hm (by omega)]
  constructor <;> simp [applyWeights_tc, applyWeights_tf, applyHumidity_tc, applyHumidity_tf]

theorem c3_legacy_temperature_witness :
    (decode "AA" none 0 ⟨"AA", none, none⟩ payload15T).map
        (Option.map (fun r => r.temperature_c)) = Except.ok (some (some (-40))) ∧
    (decode "AA" none 0 ⟨"AA", none, none⟩ payload15T).map
        (Option.map (fun r => r.temperature_f)) = Except.ok (some (some (-40))) := by
  have h := c3_legacy_temperature "AA" none 0 ⟨"AA", none, none⟩ payload15T
    (by decide) (by decide) (by decide)
  norm_num [le16, payload15T] at h
  exact h

/-- C4 counterexample: a scale-model payload of length exactly 20 (> 19, as the
claim requires) makes the decoder raise `IndexError`, so no Reading with the
overridden total weight is produced. -/
theorem c4_counterexample :
    (decode "AA" none 0 ⟨"AA", none, none⟩ payload20WS).map
        (Option.map (fun r => r.total_weight_lbs)) = Except.error PyExc.indexError ∧
    19 < payload20WS.length ∧ IsScale (payload20WS.getD 0 0) :=
  ⟨rfl, by decide, by decide⟩

/-- C4 amended: for scale-capable models and payload length greater than 20,
a non-sentinel little-endian value at bytes 19-20 unconditionally overrides the
total weight with (totalWeightRaw - 32767)/100 * SCALE_FACTOR, whatever the
two-sided weight bytes contained. -/
theorem c4_total_weight_override (a : String) (l : Option String) (rssi : Int)
    (saved : BroodminderDevice) (data : List Nat)
    (hs : IsScale (data.getD 0 0)) (h20 : 20 < data.length)
    (hne : le16 data 19 ≠ 0x7FFF) :
    (decode a l rssi saved data).map (Option.map (fun r => r.total_weight_lbs)) =
      Except.ok (some (some (((le16 data 19 : ℚ) - 32767) / 100 * SCALE_FACTOR))) := by
  unfold decode
  rw [decodePre_ge15 a l rssi saved data (by omega)]
  dsimp only
  rw [applyOverride_hit _ data hs h20 hne]
  rfl

theorem c4_total_weight_override_witness :
    (decode "AA" none 0 ⟨"AA", none, none⟩ payload21W).map
        (Option.map (fun r => r.total_weight_lbs)) =
      Except.ok (some (some (-32767 / 50))) := by
  have h := c4_total_weight_override "AA" none 0 ⟨"AA", none, none⟩ payload21W
    (by decide) (by decide) (by decide)
  norm_num [le16, payload21W, SCALE_FACTOR] at h ⊢
  exact h

/-- C5 counterexample: a length-14 scale payload carrying a sentinel left weight
and a valid right weight at bytes 10-13 decodes with the right weight absent,
because the measurement block requires length at least 15. -/
theorem c5_counterexample :
    (decode "AA" none 0 ⟨"AA", none, none⟩ payload14W).map
        (Option.map (fun r => r.weight_right_lbs)) = Except.ok (some none) ∧
    le16 payload14W 10 = 0x7FFF ∧ le16 payload14W 12 ≠ 0x7FFF ∧
    IsScale (payload14W.getD 0 0) ∧ 13 < payload14W.length :=
  ⟨rfl, by decide, by decide, by decide, by decide⟩

/-- C5 amended: for scale-capable payloads of length at least 15 (and, because of
the separate out-of-range defect, not exactly 20) with a sentinel left weight
and a non-sentinel right weight, the left weight is absent, the right weight is
(weightRightRaw - 32767)/100, and the pre-override derived total is the right
side alone times SCALE_FACTOR. -/
theorem c5_left_sentinel (a : String) (l : Option String) (rssi : Int)
    (saved : BroodminderDevice) (data : List Nat)
    (hs : IsScale (data.getD 0 0)) (h15 : 15 ≤ data.length) (h20 : data.length ≠ 20)
    (hl : le16 data 10 = 0x7FFF) (hr : le16 data 12 ≠ 0x7FFF) :
    (decode a l rssi saved data).map (Option.map (fun r => r.weight_left_lbs)) =
      Except.ok (some none) ∧
    (decode a l rssi saved data).map (Option.map (fun r => r.weight_right_lbs)) =
      Except.ok (some (some (((le16 data 12 : ℚ) - 32767) / 100))) ∧
    (decodePre a l rssi saved data).map (fun r => r.total_weight_lbs) =
      some (some (((le16 data 12 : ℚ) - 32767) / 100 * SCALE_FACTOR)) := by
  have h20a : ¬(IsScale (data.getD 0 0) ∧ data.length = 20) := fun hc => h20 hc.2
  rw [decode_proj (fun r => r.weight_left_lbs) (fun _ _ => rfl) a l rssi saved data h20a,
      decode_proj (fun r => r.weight_right_lbs) (fun _ _ => rfl) a l rssi saved data h20a,
      decodePre_ge15 a l rssi saved data h15]
  rw [applyWeights_left_sentinel _ data hs (by omega)
        (by rw [applyHumidity_wl, applyTemp_wl]; rfl) hl hr]
  refine ⟨?_, rfl, rfl⟩
  simp [applyHumidity_wl, applyTemp_wl, baseReading]

theorem c5_left_sentinel_witness :
    (decode "AA" none 0 ⟨"AA", none, none⟩ payload15W).map
        (Option.map (fun r => r.weight_left_lbs)) = Except.ok (some none) ∧
    (decode "AA" none 0 ⟨"AA", none, none⟩ payload15W).map
        (Option.map (fun r => r.weight_right_lbs)) = Except.ok (some (some (-32767 / 100))) ∧
    (decodePre "AA" none 0 ⟨"AA", none, none⟩ payload15W).map
        (fun r => r.total_weight_lbs) = some (some (-32767 / 50)) := by
  have h := c5_left_sentinel "AA" none 0 ⟨"AA", none, none⟩ payload15W
    (by decide) (by decide) (by decide) (by decide) (by decide)
  norm_num [le16, payload15W, SCALE_FACTOR] at h ⊢
  exact h

/-- C6 counterexample: a model-47 payload of length 20 whose tempRaw is 5001
makes the decoder raise `IndexError`, so no temperature of 0.01 is produced,
although the payload is long enough to carry temperature. -/
theorem c6_counterexample :
    (decode "AA" none 0 ⟨"AA", none, none⟩ payload20TMWC).map
        (Option.map (fun r => r.temperature_c)) = Except.error PyExc.indexError ∧
    le16 payload20TMWC 7 = 5001 ∧ 47 ≤ payload20TMWC.getD 0 0 :=
  ⟨rfl, by decide, by decide⟩

/-- C6 amended: for models with code at least 47 and payload length at least 15
(excluding scale-model payloads of length exactly 20, where decode raises),
temperature fields are populated exactly when tempRaw > 5000, with
tempC = (tempRaw - 5000)/100 and tempF = tempC*9/5 + 32. -/
theorem c6_current_temperature_gate (a : String) (l : Option String) (rssi : Int)
    (saved : BroodminderDevice) (data : List Nat)
    (hm : 47 ≤ data.getD 0 0) (h15 : 15 ≤ data.length)
    (h20 : ¬(IsScale (data.getD 0 0) ∧ data.length = 20)) :
    (decode a l rssi saved data).map (Option.map (fun r => r.temperature_c)) =
      Except.ok (some (if 5000 < le16 data 7 then
        some (((le16 data 7 : ℚ) - 5000) / 100) else none)) ∧
    (decode a l rssi saved data).map (Option.map (fun r => r.temperature_f)) =
      Except.ok (some (if 5000 < le16 data 7 then
        some (((le16 data 7 : ℚ) - 5000) / 100 * 9 / 5 + 32) else none)) := by
  rw [decode_proj (fun r => r.temperature_c) (fun _ _ => rfl) a l rssi saved data h20,
      decode_proj (fun r => r.temperature_f) (fun _ _ => rfl) a l rssi saved data h20,
      decodePre_ge15 a l rssi saved data h15]
  rw [applyTemp_current _ data hm (by omega)]
  constructor <;> · simp only [Option.map]
                    split_ifs <;> simp [applyWeights_tc, applyWeights_tf, applyHumidity_tc,
                      applyHumidity_tf, baseReading]

theorem c6_current_temperature_gate_witness :
    (decode "AA" none 0 ⟨"AA", none, none⟩ payload15TMWC).map
        (Option.map (fun r => r.temperature_c)) = Except.ok (some (some (1 / 100))) ∧
    (decode "AA" none 0 ⟨"AA", none, none⟩ payload15TMWC).map
        (Option.map (fun r => r.temperature_f)) = Except.ok (some (some (16009 / 500))) := by
  have h := c6_current_temperature_gate "AA" none 0 ⟨"AA", none, none⟩ payload15TMWC
    (by decide) (by decide) (by decide)
  norm_num [le16, payload15TMWC] at h ⊢
  exact h

/-- C7: the Reading's name is the advertised local name when non-empty, else the
known identity's stored name (absent when neither is available), and whether the
decode succeeds never depends on the name inputs: the only failure is the
length-20 scale-payload defect, a property of the payload alone. -/
theorem c7_name_resolution (a : String) (l : Option String) (rssi : Int)
    (saved : BroodminderDevice) (data : List Nat) :
    (∀ r : BroodminderData, decode a l rssi saved data = Except.ok (some r) →
      r.name = pyOr l saved.name) ∧
    (decode a l rssi saved data = Except.error PyExc.indexError ↔
      (IsScale (data.getD 0 0) ∧ data.length = 20)) := by
  constructor
  · intro r h
    unfold decode at h
    cases hp : decodePre a l rssi saved data with
    | none => rw [hp] at h; exact absurd h (by simp)
    | some r0 =>
      rw [hp] at h
      dsimp only at h
      cases ho : applyOverride r0 data with
      | error e => rw [ho] at h; exact absurd h (by simp [Except.map])
      | ok s =>
        rw [ho] at h
        simp only [Except.map, Except.ok.injEq, Option.some.injEq] at h
        subst h
        obtain ⟨q, rfl⟩ := applyOverride_ok_shape r0 s data ho
        show r0.name = pyOr l saved.name
        exact decodePre_name a l rssi saved data r0 hp
  · constructor
    · intro h
      by_contra hc
      unfold decode at h
      cases hp : decodePre a l rssi saved data with
      | none => rw [hp] at h; exact absurd h (by simp)
      | some r0 =>
        rw [hp] at h
        dsimp only at h
        obtain ⟨q, hq⟩ := applyOverride_shape r0 data hc
        rw [hq] at h
        exact absurd h (by simp [Except.map])
    · rintro ⟨hs, h20⟩
      unfold decode
      rw [decodePre_ge15 a l rssi saved data (by omega)]
      dsimp only
      unfold applyOverride
      dsimp only
      rw [if_pos ⟨hs, by omega⟩, if_neg (by omega)]
      rfl

theorem c7_name_resolution_witness :
    ({ address := "AA", name := none, friendly_name := none, rssi := 0, model_number := 41,
       model_name := "BroodMinder-T", firmware_version := "1.0",
       raw_data := some [41, 0, 1] } : BroodminderData).name = none :=
  (c7_name_resolution "AA" none 0 ⟨"AA", none, none⟩ [41, 0, 1]).1 _ rfl

/-- C10: in every Reading produced by a successful decode the two temperature
fields are present together or absent together. -/
theorem c10_temperature_fields_paired (a : String) (l : Option String) (rssi : Int)
    (saved : BroodminderDevice) (data : List Nat) (r : BroodminderData)
    (h : decode a l rssi saved data = Except.ok (some r)) :
    (r.temperature_c.isSome ↔ r.temperature_f.isSome) := by
  unfold decode at h
  cases hp : decodePre a l rssi saved data with
  | none => rw [hp] at h; exact absurd h (by simp)
  | some r0 =>
    rw [hp] at h
    dsimp only at h
    cases ho : applyOverride r0 data with
    | error e => rw [ho] at h; exact absurd h (by simp [Except.map])
    | ok s =>
      rw [ho] at h
      simp only [Except.map, Except.ok.injEq, Option.some.injEq] at h
      subst h
      obtain ⟨q, rfl⟩ := applyOverride_ok_shape r0 s data ho
      exact decodePre_temp_paired a l rssi saved data r0 hp

theorem c10_temperature_fields_paired_witness :
    ((some ((le16 payload15T 7 : ℚ) / 65536 * 165 - 40)).isSome ↔
      (some (((le16 payload15T 7 : ℚ) / 65536 * 165 - 40) * 9 / 5 + 32)).isSome) :=
  c10_temperature_fields_paired "AA" none 0 ⟨"AA", none, none⟩ payload15T _ rfl

theorem removeFirstAddr_of_not_mem (a : String) (l : List BroodminderData)
    (h : a ∉ l.map (fun r => r.address)) : removeFirstAddr a l = l := by
  induction l with
  | nil => rfl
  | cons x xs ih =>
    simp only [List.map_cons, List.mem_cons] at h
    push_neg at h
    unfold removeFirstAddr
    rw [if_neg (fun hx => h.1 hx.symm), ih h.2]

theorem mem_addr_keepLast (a : String) (xs : List BroodminderData)
    (h : a ∈ (keepLast xs).map (fun r => r.address)) :
    a ∈ xs.map (fun r => r.address) := by
  induction xs with
  | nil => simp only [keepLast] at h; exact h
  | cons x xs ih =>
    unfold keepLast at h
    split_ifs at h with hany
    · exact List.mem_cons_of_mem _ (ih h)
    · simp only [List.map_cons, List.mem_cons] at h ⊢
      rcases h with h | h
      · exact Or.inl h
      · exact Or.inr (ih h)

theorem keepLast_append (rs : List BroodminderData) (r : BroodminderData) :
    keepLast (rs ++ [r]) = removeFirstAddr r.address (keepLast rs) ++ [r] := by
  induction rs with
  | nil => rfl
  | cons x rs ih =>
    show keepLast (x :: (rs ++ [r])) = removeFirstAddr r.address (keepLast (x :: rs)) ++ [r]
    simp only [keepLast]
    rcases eq_or_ne x.address r.address with hx | hx
    · have hany2 : ((rs ++ [r]).any fun y => y.address == x.address) = true := by
        simp [List.any_append, hx]
      rw [if_pos hany2]
      split_ifs with hany
      · exact ih
      · simp only [removeFirstAddr]
        rw [if_pos hx, ih]
        have hnm : r.address ∉ (keepLast rs).map (fun y => y.address) := by
          intro hm
          have hmem := mem_addr_keepLast r.address rs hm
          simp only [List.mem_map] at hmem
          obtain ⟨y, hy, hya⟩ := hmem
          exact hany (by
            simp only [List.any_eq_true]
            exact ⟨y, hy, by simp [hya, hx]⟩)
        rw [removeFirstAddr_of_not_mem _ _ hnm]
    · have hc : ((rs ++ [r]).any fun y => y.address == x.address) =
          (rs.any fun y => y.address == x.address) := by
        simp [List.any_append, beq_iff_eq, Ne.symm hx]
      rw [hc]
      split_ifs with hany
      · exact ih
      · simp only [removeFirstAddr]
        rw [if_neg hx, ih]
        rfl

/-- C2 amended: the snapshot holds exactly one entry per distinct address, the
most recently ingested reading for it, but ordered by each address's most
recent sighting: a replacement removes the old entry and appends the new one at
the end, so the position of first sighting is not preserved. -/
theorem c2_snapshot_last_wins (rs : List BroodminderData) :
    snapshot rs = keepLast rs ∧ ((snapshot rs).map (fun r => r.address)).Nodup := by
  have hmain : ∀ l : List BroodminderData, snapshot l = keepLast l := by
    intro l
    induction l using List.reverseRecOn with
    | nil => rfl
    | append_singleton l r ih =>
      show (l ++ [r]).foldl ingest [] = _
      rw [List.foldl_append, keepLast_append]
      show ingest (snapshot l) r = _
      rw [ih]
      rfl
  refine ⟨hmain rs, ?_⟩
  rw [hmain rs]
  clear hmain
  induction rs with
  | nil => simp [keepLast]
  | cons x xs ih =>
    unfold keepLast
    split_ifs with hany
    · exact ih
    · simp only [List.map_cons, List.nodup_cons]
      refine ⟨?_, ih⟩
      intro hm
      have hmem := mem_addr_keepLast x.address xs hm
      simp only [List.mem_map] at hmem
      obtain ⟨y, hy, hya⟩ := hmem
      exact hany (by
        simp only [List.any_eq_true]
        exact ⟨y, hy, by simp [hya]⟩)

/-- C2 counterexample: ingesting readings for addresses A, B, A leaves the
replacement for A at the end, not at A's first-sighting index 0. -/
theorem c2_counterexample :
    snapshot [mkSimpleReading "A" 0, mkSimpleReading "B" 0, mkSimpleReading "A" (-7)] =
      [mkSimpleReading "B" 0, mkSimpleReading "A" (-7)] ∧
    (snapshot [mkSimpleReading "A" 0, mkSimpleReading "B" 0, mkSimpleReading "A" (-7)]).map
        (fun r => r.address) = ["B", "A"] ∧
    ["B", "A"] ≠ ["A", "B"] :=
  ⟨by decide, by decide, by decide⟩

theorem save_devices_fresh_friendly (found : List BroodminderData) :
    ∀ (m : List (String × BroodminderDevice)) (b : String),
      lookupAddr m b = none →
      ∀ devN, lookupAddr (save_devices m found) b = some devN →
        devN.friendly_name = none := by
  induction found with
  | nil =>
    intro m b h devN hN
    have hN2 : lookupAddr m b = some devN := hN
    rw [h] at hN2
    exact absurd hN2 (by simp)
  | cons d fs ih =>
    intro m b h devN hN
    rw [save_devices_cons] at hN
    rcases eq_or_ne b d.address with hb | hb
    · subst hb
      cases hn : d.name with
      | some n =>
        have hstep := reconcileOne_self_none_some m d n h hn
        obtain ⟨devN2, hN2, hf, _⟩ := save_devices_entry_shape fs (reconcileOne m d) d.address _ hstep
        rw [hN2] at hN
        injection hN with hN
        rw [← hN]
        exact hf
      | none =>
        have hstep := reconcileOne_self_none_none m d h hn
        obtain ⟨devN2, hN2, hf, _⟩ := save_devices_entry_shape fs (reconcileOne m d) d.address _ hstep
        rw [hN2] at hN
        injection hN with hN
        rw [← hN]
        exact hf
    · have hstep := reconcileOne_lookup_ne m d b hb
      rw [h] at hstep
      exact ih (reconcileOne m d) b hstep devN hN

theorem save_devices_no_name_no_touch (found : List BroodminderData) :
    ∀ (m : List (String × BroodminderDevice)) (b : String),
      (∀ d ∈ found, d.address = b → d.name = none) →
      (lookupAddr (save_devices m found) b = lookupAddr m b ∨
       (lookupAddr m b = none ∧
        lookupAddr (save_devices m found) b = some ⟨b, none, none⟩)) := by
  induction found with
  | nil => exact fun m b _ => Or.inl rfl
  | cons d fs ih =>
    intro m b h
    have hfs : ∀ x ∈ fs, x.address = b → x.name = none :=
      fun x hx => h x (List.mem_cons_of_mem _ hx)
    rw [save_devices_cons]
    rcases eq_or_ne b d.address with hb | hb
    · have hdn : d.name = none := h d (List.mem_cons_self _ _) hb.symm
      subst hb
      cases hm : lookupAddr m d.address with
      | some dev =>
        have hstep := reconcileOne_self_some_none m d dev hm hdn
        rcases ih (reconcileOne m d) d.address hfs with h1 | ⟨h1a, h1b⟩
        · left
          rw [h1, hstep]
        · rw [hstep] at h1a
          exact absurd h1a (by simp)
      | none =>
        have hstep := reconcileOne_self_none_none m d hm hdn
        rcases ih (reconcileOne m d) d.address hfs with h1 | ⟨h1a, h1b⟩
        · right
          refine ⟨rfl, ?_⟩
          rw [h1, hstep]
        · rw [hstep] at h1a
          exact absurd h1a (by simp)
    · have hstep := reconcileOne_lookup_ne m d b hb
      rcases ih (reconcileOne m d) b hfs with h1 | ⟨h1a, h1b⟩
      · left
        rw [h1, hstep]
      · right
        rw [hstep] at h1a
        exact ⟨h1a, h1b⟩

/-- C9: reconciliation creates an identity for every sighted address, updates a
stored name only from a reading whose resolved name is present (never
overwriting a stored name with absent), and never writes friendly names:
existing entries keep theirs and fresh entries get none. -/
theorem c9_reconcile (m : List (String × BroodminderDevice))
    (found : List BroodminderData) (b : String) :
    (∀ d ∈ found, (lookupAddr (save_devices m found) d.address).isSome) ∧
    (∀ dev, lookupAddr m b = some dev →
      ∃ devN, lookupAddr (save_devices m found) b = some devN ∧
        devN.friendly_name = dev.friendly_name ∧
        (dev.name.isSome → devN.name.isSome)) ∧
    (lookupAddr m b = none →
      ∀ devN, lookupAddr (save_devices m found) b = some devN →
        devN.friendly_name = none) ∧
    ((∀ d ∈ found, d.address = b → d.name = none) →
      (lookupAddr (save_devices m found) b = lookupAddr m b ∨
       (lookupAddr m b = none ∧
        lookupAddr (save_devices m found) b = some ⟨b, none, none⟩))) := by
  refine ⟨?_, ?_, save_devices_fresh_friendly found m b,
    save_devices_no_name_no_touch found m b⟩
  · intro d hd
    induction found generalizing m with
    | nil => exact absurd hd (List.not_mem_nil d)
    | cons f fs ih =>
      rw [save_devices_cons]
      rcases List.mem_cons.mp hd with hdf | hdfs
      · subst hdf
        exact save_devices_preserves_present fs (reconcileOne m d) d.address
          (reconcileOne_self_isSome m d)
      · exact ih (reconcileOne m f) hdfs
  · exact fun dev h => save_devices_entry_shape found m b dev h

theorem c9_reconcile_witness :
    lookupAddr (save_devices storeQueen [mkSimpleReading "AA" 0]) "AA" =
      some ⟨"AA", some "old", some "Queen"⟩ := by
  rcases (c9_reconcile storeQueen [mkSimpleReading "AA" 0] "AA").2.2.2 (by decide)
    with h | ⟨h1, _⟩
  · rw [h]
    rfl
  · exact absurd h1 (by decide)

/-- C8: an absent devices file and an unparsable devices file both load as the
empty store, and a record-shaped corruption (TypeError) is tolerated too, but
valid JSON that is not an object raises an uncaught AttributeError — corruption
of that shape does crash the loader. -/
theorem c8_load_corrupt_file :
    load_saved_devices FileState.absent = Except.ok [] ∧
    load_saved_devices FileState.unparsable = Except.ok [] ∧
    load_saved_devices (FileState.parsed (Json.obj [("AA", Json.num 5)])) = Except.ok [] ∧
    load_saved_devices (FileState.parsed (Json.arr [Json.num 1, Json.num 2, Json.num 3])) =
      Except.error PyExc.attributeError :=
  ⟨rfl, rfl, rfl, rfl⟩
